import Mathlib

/-!
# Verification of the murdance booking orchestrator core

A shallow embedding, in Lean 4, of the core components of the repository:

* `app/core/fsm.py` — conversation finite state machine,
* `app/core/idempotency.py` — booking idempotency lock over Redis SETNX,
* `app/ai/budget_guard.py` — windowed budget counters,
* `app/integrations/impulse/client.py` — circuit breaker and retried HTTP request,
* `app/integrations/impulse/cache.py` / `adapter.py` — read-through cache and invalidation,
* `app/core/booking_flow.py` — booking confirmation sequence and receipt generation.

Python strings are modelled as `List Char` where character-level operations
matter (receipt truncation) and as `String` elsewhere; machine integers are
`Nat`/`Int`; time is a `Nat` count of seconds; Redis is an explicit store
threaded through each operation; fallible calls return `Except`.
-/

set_option maxRecDepth 4000

namespace Murdance

/-! ## Conversation FSM (`app/core/fsm.py`, `app/models.py`) -/

/-- The `ConversationState` enum from `app/models.py`. -/
inductive ConversationState where
  | IDLE
  | COLLECTING_INTENT
  | BROWSING_SCHEDULE
  | COLLECTING_GROUP
  | COLLECTING_DATETIME
  | COLLECTING_CONTACT
  | CONFIRM_BOOKING
  | BOOKING_IN_PROGRESS
  | BOOKING_DONE
  | CANCEL_FLOW
  | SERIAL_BOOKING
  | HANDOFF_TO_ADMIN
  | ADMIN_RESPONDING
  deriving DecidableEq, Fintype, Repr

open ConversationState

/-- The allowed-transition table built inside `can_transition`
(`app/core/fsm.py`, lines 21–91). -/
def transitions_table (s : ConversationState) : List ConversationState :=
  match s with
  | IDLE => [COLLECTING_INTENT, CANCEL_FLOW, HANDOFF_TO_ADMIN]
  | COLLECTING_INTENT =>
      [BROWSING_SCHEDULE, COLLECTING_GROUP, COLLECTING_DATETIME,
       COLLECTING_CONTACT, IDLE, CANCEL_FLOW, HANDOFF_TO_ADMIN]
  | BROWSING_SCHEDULE => [COLLECTING_GROUP, IDLE, CANCEL_FLOW, HANDOFF_TO_ADMIN]
  | COLLECTING_GROUP => [COLLECTING_DATETIME, IDLE, CANCEL_FLOW, HANDOFF_TO_ADMIN]
  | COLLECTING_DATETIME => [COLLECTING_CONTACT, IDLE, CANCEL_FLOW, HANDOFF_TO_ADMIN]
  | COLLECTING_CONTACT => [CONFIRM_BOOKING, IDLE, CANCEL_FLOW, HANDOFF_TO_ADMIN]
  | CONFIRM_BOOKING => [BOOKING_IN_PROGRESS, IDLE, CANCEL_FLOW, HANDOFF_TO_ADMIN]
  | BOOKING_IN_PROGRESS => [BOOKING_DONE, IDLE, HANDOFF_TO_ADMIN]
  | BOOKING_DONE => [IDLE, SERIAL_BOOKING]
  | CANCEL_FLOW => [IDLE, HANDOFF_TO_ADMIN]
  | SERIAL_BOOKING => [COLLECTING_GROUP, IDLE, HANDOFF_TO_ADMIN]
  | HANDOFF_TO_ADMIN => [ADMIN_RESPONDING, IDLE]
  | ADMIN_RESPONDING => [IDLE]

/-- The `can_transition` from `app/core/fsm.py`: membership in the table's row
(`transitions.get(from_state, [])` always finds a row — every state is a key). -/
def can_transition (from_state to_state : ConversationState) : Bool :=
  (transitions_table from_state).contains to_state

/-- The `get_timeout_seconds` from `app/core/fsm.py`. -/
def get_timeout_seconds (state : ConversationState) : Option Nat :=
  match state with
  | CONFIRM_BOOKING => some (3 * 3600)
  | BOOKING_IN_PROGRESS => some 30
  | ADMIN_RESPONDING => some (4 * 3600)
  | _ => none

/-- The `is_terminal_state` from `app/core/fsm.py`. -/
def is_terminal_state (state : ConversationState) : Bool :=
  state == BOOKING_DONE

/-- Slot values carried by a session (`SlotValues` in `app/models.py`).
`datetime_resolved` is modelled as a resolved (date ISO string, "HH:MM" time
string) pair — exactly the two projections `confirm_booking` extracts from the
Python `datetime` value. The bounded message history is irrelevant to the
claims and omitted. -/
structure SlotValues where
  group : Option String := none
  datetime_raw : Option String := none
  datetime_resolved : Option (String × String) := none
  client_name : Option String := none
  client_phone : Option String := none
  schedule_id : Option String := none
  deriving DecidableEq, Repr

/-- The session fields `transition_state` and `confirm_booking` touch
(`Session` in `app/models.py`). -/
structure Session where
  state : ConversationState
  slots : SlotValues
  deriving DecidableEq, Repr

/-- The `transition_state` from `app/core/conversation.py` (lines 130–148): on a
disallowed pair it returns `False` and leaves the session untouched; otherwise
it updates the state and returns `True`.  (The `save_session` persistence call
does not alter the session value.) -/
def transition_state (session : Session) (new_state : ConversationState) :
    Session × Bool :=
  if can_transition session.state new_state then
    ({ session with state := new_state }, true)
  else
    (session, false)

/-! The transition table as the specification's §4.2 lists it, for the
refinement claim C7.  This definition follows the spec's words, to be compared
with `transitions_table`, which follows the source. -/

/-- Transition table transcribed from spec §4.2 (one line per bullet). -/
def spec_transition_table (s : ConversationState) : List ConversationState :=
  match s with
  | IDLE => [COLLECTING_INTENT, CANCEL_FLOW, HANDOFF_TO_ADMIN]
  | COLLECTING_INTENT =>
      [BROWSING_SCHEDULE, COLLECTING_GROUP, COLLECTING_DATETIME,
       COLLECTING_CONTACT, IDLE, CANCEL_FLOW, HANDOFF_TO_ADMIN]
  | BROWSING_SCHEDULE => [COLLECTING_GROUP, IDLE, CANCEL_FLOW, HANDOFF_TO_ADMIN]
  | COLLECTING_GROUP => [COLLECTING_DATETIME, IDLE, CANCEL_FLOW, HANDOFF_TO_ADMIN]
  | COLLECTING_DATETIME => [COLLECTING_CONTACT, IDLE, CANCEL_FLOW, HANDOFF_TO_ADMIN]
  | COLLECTING_CONTACT => [CONFIRM_BOOKING, IDLE, CANCEL_FLOW, HANDOFF_TO_ADMIN]
  | CONFIRM_BOOKING => [BOOKING_IN_PROGRESS, IDLE, CANCEL_FLOW, HANDOFF_TO_ADMIN]
  | BOOKING_IN_PROGRESS => [BOOKING_DONE, IDLE, HANDOFF_TO_ADMIN]
  | BOOKING_DONE => [IDLE, SERIAL_BOOKING]
  | CANCEL_FLOW => [IDLE, HANDOFF_TO_ADMIN]
  | SERIAL_BOOKING => [COLLECTING_GROUP, IDLE, HANDOFF_TO_ADMIN]
  | HANDOFF_TO_ADMIN => [ADMIN_RESPONDING, IDLE]
  | ADMIN_RESPONDING => [IDLE]

/-- Membership in the spec's §4.2 table. -/
def spec_allows (from_state to_state : ConversationState) : Bool :=
  (spec_transition_table from_state).contains to_state

/-! ## Circuit breaker and retried request (`app/integrations/impulse/client.py`)

`time.time()` is modelled as a `Nat` count of seconds passed to the operations
that read the clock. -/

/-- The `CircuitBreaker` state (`client.py`, lines 22–36), constructed with
`failure_threshold = 5`, `timeout_seconds = 60`, `failure_count = 0`,
`last_failure_time = None`, `is_open = False`. -/
structure CircuitBreaker where
  failure_threshold : Nat := 5
  timeout_seconds : Nat := 60
  failure_count : Nat := 0
  last_failure_time : Option Nat := none
  is_open : Bool := false
  deriving DecidableEq, Repr

/-- The `CircuitBreaker.record_success` (`client.py`, lines 38–42). -/
def record_success (s : CircuitBreaker) : CircuitBreaker :=
  { s with failure_count := 0, is_open := false, last_failure_time := none }

/-- The `CircuitBreaker.record_failure` (`client.py`, lines 44–53); `now` is
`time.time()`. Returns the updated state and the function's Bool result. -/
def record_failure (s : CircuitBreaker) (now : Nat) : CircuitBreaker × Bool :=
  let s1 := { s with failure_count := s.failure_count + 1,
                     last_failure_time := some now }
  if s1.failure_threshold ≤ s1.failure_count then
    ({ s1 with is_open := true }, true)
  else
    (s1, false)

/-- The `CircuitBreaker.should_attempt` (`client.py`, lines 55–70).  Note that when
the timeout has passed it *mutates* the breaker: it closes it and resets the
failure count before the trial call is made. -/
def should_attempt (s : CircuitBreaker) (now : Nat) : CircuitBreaker × Bool :=
  if s.is_open = false then
    (s, true)
  else
    match s.last_failure_time with
    | none => (s, true)
    | some t =>
        if s.timeout_seconds < now - t then
          ({ s with is_open := false, failure_count := 0 }, true)
        else
          (s, false)

/-- The exception kinds that can escape one body run of `_request`.  The
`httpx` class hierarchy (library semantics): `TimeoutException <: TransportError
<: HTTPError` and `HTTPStatusError <: HTTPError`, so *all three* network/status
variants are instances of `httpx.HTTPError`; `RuntimeError` (breaker open) is
not. -/
inductive PyExc where
  | httpStatusError (code : Nat)
  | transportError
  | timeoutError
  | runtimeError (msg : String)
  deriving DecidableEq, Repr

/-- Instance check against `httpx.HTTPError` (base class of all `httpx`
exceptions, including `HTTPStatusError` raised by `raise_for_status` for
4xx/5xx). -/
def isHttpError (e : PyExc) : Bool :=
  match e with
  | .runtimeError _ => false
  | _ => true

/-- Instance check against `httpx.TimeoutException`. -/
def isTimeoutException (e : PyExc) : Bool :=
  match e with
  | .timeoutError => true
  | _ => false

/-- The decorator's predicate
`retry_if_exception_type((httpx.HTTPError, httpx.TimeoutException))`. -/
def retryOnExc (e : PyExc) : Bool :=
  isHttpError e || isTimeoutException e

/-- Outcome of one actual network round trip, had it been attempted. -/
inductive NetOutcome where
  | ok
  | raises (e : PyExc)
  deriving DecidableEq, Repr

/-- One execution of the body of `_request` (`client.py`, lines 133–151):
check the breaker (raising `RuntimeError("Circuit breaker is open")` without
touching the network when it refuses), otherwise perform the network call,
record success/failure on the breaker and return/raise.  `attempted` records
whether a network request was issued. -/
structure BodyResult where
  state : CircuitBreaker
  result : Except PyExc Unit
  attempted : Bool
  deriving Repr

/-- Semantics of one (unretried) run of `_request`'s body. -/
def requestBody (s : CircuitBreaker) (now : Nat) (net : NetOutcome) : BodyResult :=
  match should_attempt s now with
  | (s1, false) =>
      ⟨s1, Except.error (PyExc.runtimeError "Circuit breaker is open"), false⟩
  | (s1, true) =>
      match net with
      | NetOutcome.ok => ⟨record_success s1, Except.ok (), true⟩
      | NetOutcome.raises e => ⟨(record_failure s1 now).1, Except.error e, true⟩

/-- The `wait_exponential(multiplier=1, min=1, max=10)`: the pause after the
`attempt`-th failed attempt, in seconds. -/
def waitExponential (attempt : Nat) : Nat :=
  min (max (2 ^ (attempt - 1)) 1) 10

/-- Aggregate outcome of running `_request` under its
`@retry(... stop=stop_after_attempt(3) ...)` decorator: final breaker state,
surfaced result, number of network requests actually issued, and the backoff
pauses taken between attempts. -/
structure RetryRun where
  state : CircuitBreaker
  result : Except PyExc Unit
  networkAttempts : Nat
  waits : List Nat
  deriving Repr

/-- The tenacity retry loop: run the body; on an exception matching the retry
predicate, sleep and rerun, up to `remaining` runs in total; surface the
exception otherwise.  `nets` gives, per body-run number (1-based), the outcome
the network would produce. -/
def retryLoop (nets : Nat → NetOutcome) (now : Nat) :
    Nat → Nat → CircuitBreaker → Nat → List Nat → RetryRun
  | _, 0, s, count, ws => ⟨s, Except.error (PyExc.runtimeError "unreachable"), count, ws⟩
  | attempt, remaining + 1, s, count, ws =>
      let b := requestBody s now (nets attempt)
      let count1 := count + (if b.attempted then 1 else 0)
      match b.result with
      | Except.ok u => ⟨b.state, Except.ok u, count1, ws⟩
      | Except.error e =>
          if retryOnExc e ∧ 0 < remaining then
            retryLoop nets now (attempt + 1) remaining b.state count1
              (ws ++ [waitExponential attempt])
          else
            ⟨b.state, Except.error e, count1, ws⟩

/-- The `_request` as decorated: `stop_after_attempt(3)` allows at most 3 body
runs. -/
def requestWithRetry (s : CircuitBreaker) (now : Nat) (nets : Nat → NetOutcome) :
    RetryRun :=
  retryLoop nets now 1 3 s 0 []

/-- Iterated `record_failure` at a fixed instant (a burst of `n` consecutive
failed calls). -/
def recordFailures (s : CircuitBreaker) (now : Nat) : Nat → CircuitBreaker
  | 0 => s
  | n + 1 => (record_failure (recordFailures s now n) now).1

/-! ## Redis string store (`app/storage/redis.py`)

Keys with an expiry live until (strictly before) their expiry instant; a key
is read back only while `now < expiresAt`, matching Redis TTL semantics. -/

/-- A Redis string keyspace: at most one live entry per key, each entry being
(key, value, expiry instant). The operations below preserve key uniqueness. -/
structure RedisState where
  entries : List (String × String × Nat)
  deriving DecidableEq, Repr

/-- Empty keyspace. -/
def RedisState.empty : RedisState := ⟨[]⟩

/-- The `GET key` at instant `now` (`RedisStorage.get`): the stored value if the
key exists and has not expired. -/
def rget (st : RedisState) (now : Nat) (key : String) : Option String :=
  match st.entries.find? (fun e => e.1 == key && now < e.2.2) with
  | some e => some e.2.1
  | none => none

/-- The `SET key value EX ex` at instant `now` (`RedisStorage.set`): replaces any
entry for `key`. -/
def rset (st : RedisState) (now : Nat) (key value : String) (ex : Nat) :
    RedisState :=
  ⟨(key, value, now + ex) :: st.entries.filter (fun e => e.1 ≠ key)⟩

/-- The `SET key value NX EX ex` (`RedisStorage.setnx`, `redis.py` lines 60–62):
set only if the key is absent (or expired); returns whether it was set. -/
def rsetnx (st : RedisState) (now : Nat) (key value : String) (ex : Nat) :
    RedisState × Bool :=
  match rget st now key with
  | some _ => (st, false)
  | none => (rset st now key value ex, true)

/-- The `DEL key` (`RedisStorage.delete`). -/
def rdelete (st : RedisState) (key : String) : RedisState :=
  ⟨st.entries.filter (fun e => e.1 ≠ key)⟩

/-! ## Idempotency guard (`app/core/idempotency.py`) -/

/-- Models `hashlib.sha256(s.encode()).hexdigest()` — a Python
standard-library cryptographic hash, outside this repository.  The claims
proved here depend only on its being a fixed deterministic function of the
input string, so it is modelled by an arbitrary but fixed computable hex
rendering of a hash of the input. -/
def sha256_hexdigest (s : String) : String :=
  String.mk (Nat.toDigits 16 s.hash.toNat)

/-- The `compute_fingerprint` (`idempotency.py`, lines 12–23):
`sha256(f"{phone}{schedule_id}")` as hex.  `schedule_id` arrives here already
rendered to its string form, as the f-string renders it. -/
def compute_fingerprint (phone schedule_id : String) : String :=
  sha256_hexdigest (phone ++ schedule_id)

/-- The `get_idempotency_key` (`idempotency.py`, lines 26–35). -/
def get_idempotency_key (fingerprint : String) : String :=
  "idempotency:" ++ fingerprint

/-- The duplicate-booking message returned by `acquire_booking_lock`. -/
def alreadyBookedMsg : String := "Вы уже записаны на это занятие ✅"

/-- The `acquire_booking_lock` (`idempotency.py`, lines 38–63): `SETNX` of `"1"`
with a 600 s TTL on the idempotency key; `(true, "")` when the lock was
acquired, `(false, already-booked message)` otherwise. -/
def acquire_booking_lock (st : RedisState) (now : Nat)
    (phone schedule_id : String) : RedisState × Bool × String :=
  let fingerprint := compute_fingerprint phone schedule_id
  let key := get_idempotency_key fingerprint
  let res := rsetnx st now key "1" 600
  if res.2 then (res.1, true, "") else (res.1, false, alreadyBookedMsg)

/-- The `release_booking_lock` (`idempotency.py`, lines 66–75): unconditional
delete of the key. -/
def release_booking_lock (st : RedisState) (phone schedule_id : String) :
    RedisState :=
  rdelete st (get_idempotency_key (compute_fingerprint phone schedule_id))

/-- A sequence of acquire attempts for the same `(phone, schedule_id)` pair,
one per listed instant; returns the final store and the per-attempt results. -/
def runAcquires (st : RedisState) (phone schedule_id : String) :
    List Nat → RedisState × List (Bool × String)
  | [] => (st, [])
  | t :: ts =>
      let a := acquire_booking_lock st t phone schedule_id
      let rest := runAcquires a.1 phone schedule_id ts
      (rest.1, (a.2.1, a.2.2) :: rest.2)

/-! ## Budget guard (`app/ai/budget_guard.py`)

Each Redis counter bucket is modelled with its stored value (`none` = key
absent, read back as 0) and its remaining TTL.  The cost counter is kept in
integer cents, as the code stores it (`cost_cents = int(cost_usd * 100)`);
the configured day limit is likewise expressed in cents, so the float
comparison `current_usd + cost_usd > max_cost_per_day_usd` is modelled
exactly as `current_cents + cost_cents > max_cents`. -/

/-- One windowed Redis counter bucket. -/
structure Bucket where
  value : Option Nat := none
  ttl : Option Nat := none
  deriving DecidableEq, Repr

/-- The `int(current_str) if current_str else 0` after a `GET`. -/
def bucket_current (b : Bucket) : Nat := b.value.getD 0

/-- The `INCRBY` (`RedisStorage.incr`): creates the key at `amount` when absent;
returns the new value. -/
def bucket_incr (b : Bucket) (amount : Nat) : Bucket × Nat :=
  let v := b.value.getD 0 + amount
  ({ b with value := some v }, v)

/-- The `EXPIRE` (`RedisStorage.expire`): sets the TTL when the key exists, no-op
otherwise. -/
def bucket_expire (b : Bucket) (seconds : Nat) : Bucket :=
  match b.value with
  | some _ => { b with ttl := some seconds }
  | none => b

/-- The budget-relevant configuration fields (`app/config.py`, lines 55–58),
with the day cost limit in cents. -/
structure Settings where
  max_tokens_per_hour : Nat := 100000
  max_cost_per_day_cents : Nat := 1000
  max_requests_per_minute : Nat := 30
  max_errors_per_hour : Nat := 50
  deriving DecidableEq, Repr

/-- The four current-window buckets of `BudgetGuard` (one per key produced by
`_get_minute_key` / `_get_hour_key` / `_get_day_key` / `_get_errors_hour_key`,
within a single window). -/
structure BudgetState where
  requestsMinute : Bucket := {}
  tokensHour : Bucket := {}
  costDay : Bucket := {}
  errorsHour : Bucket := {}
  deriving DecidableEq, Repr

/-- The `BudgetGuard.check_tokens_per_hour` (`budget_guard.py`, lines 40–63):
read, compare `current + tokens` against the limit; on breach refresh the TTL
and return `(False, current)` without incrementing; otherwise increment,
set the 3600 s TTL and return `(True, new_count)`. -/
def check_tokens_per_hour (s : Settings) (st : BudgetState) (tokens : Nat) :
    BudgetState × Bool × Nat :=
  let current := bucket_current st.tokensHour
  if s.max_tokens_per_hour < current + tokens then
    ({ st with tokensHour := bucket_expire st.tokensHour 3600 }, false, current)
  else
    let r := bucket_incr st.tokensHour tokens
    ({ st with tokensHour := bucket_expire r.1 3600 }, true, r.2)

/-- The `BudgetGuard.check_cost_per_day` (`budget_guard.py`, lines 65–93), in
cents; TTL 86400 s. -/
def check_cost_per_day (s : Settings) (st : BudgetState) (cost_cents : Nat) :
    BudgetState × Bool × Nat :=
  let current := bucket_current st.costDay
  if s.max_cost_per_day_cents < current + cost_cents then
    ({ st with costDay := bucket_expire st.costDay 86400 }, false, current)
  else
    let r := bucket_incr st.costDay cost_cents
    ({ st with costDay := bucket_expire r.1 86400 }, true, r.2)

/-- The `BudgetGuard.check_requests_per_minute` (`budget_guard.py`, lines
95–115): amount fixed at 1, TTL 60 s. -/
def check_requests_per_minute (s : Settings) (st : BudgetState) :
    BudgetState × Bool × Nat :=
  let current := bucket_current st.requestsMinute
  if s.max_requests_per_minute < current + 1 then
    ({ st with requestsMinute := bucket_expire st.requestsMinute 60 }, false, current)
  else
    let r := bucket_incr st.requestsMinute 1
    ({ st with requestsMinute := bucket_expire r.1 60 }, true, r.2)

/-- The `BudgetGuard.record_error` (`budget_guard.py`, lines 117–127):
unconditional increment, TTL 3600 s, within-limit flag `current ≤ limit`. -/
def record_error (s : Settings) (st : BudgetState) : BudgetState × Bool :=
  let r := bucket_incr st.errorsHour 1
  ({ st with errorsHour := bucket_expire r.1 3600 },
   decide (r.2 ≤ s.max_errors_per_hour))

/-- The `BudgetGuard.check_all_limits` (`budget_guard.py`, lines 129–157):
requests → tokens → cost, stopping at the first breach with its reason; no
rollback of earlier increments. -/
def check_all_limits (s : Settings) (st : BudgetState)
    (tokens cost_cents : Nat) : BudgetState × Bool × String :=
  let req := check_requests_per_minute s st
  if req.2.1 = false then (req.1, false, "MAX_REQUESTS_PER_MINUTE exceeded")
  else
    let tok := check_tokens_per_hour s req.1 tokens
    if tok.2.1 = false then (tok.1, false, "MAX_TOKENS_PER_HOUR exceeded")
    else
      let cost := check_cost_per_day s tok.1 cost_cents
      if cost.2.1 = false then (cost.1, false, "MAX_COST_PER_DAY_USD exceeded")
      else (cost.1, true, "")

/-- The `BudgetGuard.is_breached` (`budget_guard.py`, lines 159–183): read-only
snapshot, breach when any counter is `≥` its limit. -/
def is_breached (s : Settings) (st : BudgetState) : Bool :=
  decide (s.max_tokens_per_hour ≤ bucket_current st.tokensHour) ||
  decide (s.max_cost_per_day_cents ≤ bucket_current st.costDay) ||
  decide (s.max_requests_per_minute ≤ bucket_current st.requestsMinute) ||
  decide (s.max_errors_per_hour ≤ bucket_current st.errorsHour)

/-! ## CRM read-through cache (`app/integrations/impulse/cache.py`,
`app/integrations/impulse/adapter.py`)

The cache lives in the shared Redis keyspace under keys
`impulse:cache:{entity}:{params}`.  Here it is modelled as a typed store of
schedule lists (the entity the claims concern), keyed by the same flat
strings, each entry carrying its expiry instant. -/

/-- The `Schedule` model (`app/integrations/impulse/models.py`, lines 12–26;
the timestamp metadata fields are irrelevant to the claims). -/
structure Schedule where
  id : Int
  group_id : Option Int := none
  teacher_id : Option Int := none
  hall_id : Option Int := none
  date : String
  time : String
  duration_minutes : Option Int := none
  max_students : Option Int := none
  current_students : Option Int := none
  is_active : Option Bool := none
  deriving DecidableEq, Repr

/-- The `Group` model (`models.py`, lines 29–37). -/
structure Group where
  id : Int
  name : String
  style_id : Option Int := none
  teacher_id : Option Int := none
  description : Option String := none
  is_active : Option Bool := none
  deriving DecidableEq, Repr

/-- The `Client` model (`models.py`, lines 40–49). -/
structure Client where
  id : Int
  name : String
  phone : String
  email : Option String := none
  informer_id : Option Int := none
  deriving DecidableEq, Repr

/-- The `Reservation` model (`models.py`, lines 52–61). -/
structure Reservation where
  id : Int
  client_id : Int
  schedule_id : Int
  status_id : Option Int := none
  notes : Option String := none
  deriving DecidableEq, Repr

/-- Python's `":".join(parts)`. -/
def join_colon : List String → String
  | [] => ""
  | [x] => x
  | x :: xs => x ++ ":" ++ join_colon xs

/-- The `ImpulseCache._get_key` (`cache.py`, lines 21–33). -/
def impulse_cache_key (entity : String) (key_parts : List String) : String :=
  join_colon (("impulse:cache:" ++ entity) :: key_parts)

/-- The `ImpulseCache._get_ttl` (`cache.py`, lines 35–51), in seconds. -/
def cache_ttl (entity : String) : Nat :=
  if entity == "schedule" then 15 * 60
  else if entity == "group" || entity == "groups" then 60 * 60
  else if entity == "teacher" || entity == "teachers" then 60 * 60
  else 60 * 60

/-- The schedule-entity cache keyspace: (key, cached schedule list, expiry
instant), at most one live entry per key. -/
structure ImpulseCacheState where
  entries : List (String × List Schedule × Nat)
  deriving DecidableEq, Repr

/-- Empty cache. -/
def ImpulseCacheState.empty : ImpulseCacheState := ⟨[]⟩

/-- The `ImpulseCache.get` (`cache.py`, lines 53–65) at instant `now`: the cached
(JSON round-tripped) value if present and unexpired. -/
def cache_get (st : ImpulseCacheState) (now : Nat) (entity : String)
    (key_parts : List String) : Option (List Schedule) :=
  let key := impulse_cache_key entity key_parts
  match st.entries.find? (fun e => e.1 == key && now < e.2.2) with
  | some e => some e.2.1
  | none => none

/-- The `ImpulseCache.set` (`cache.py`, lines 67–82): store under the computed key
with the entity's TTL. -/
def cache_set (st : ImpulseCacheState) (now : Nat) (entity : String)
    (value : List Schedule) (key_parts : List String) : ImpulseCacheState :=
  let key := impulse_cache_key entity key_parts
  ⟨(key, value, now + cache_ttl entity) :: st.entries.filter (fun e => e.1 ≠ key)⟩

/-- The `ImpulseCache.clear_entity` (`cache.py`, lines 94–101):
`scan_delete("impulse:cache:{entity}:*")` — drop every key beginning with the
entity's prefix. -/
def clear_entity (st : ImpulseCacheState) (entity : String) : ImpulseCacheState :=
  ⟨st.entries.filter
    (fun e => !(("impulse:cache:" ++ entity ++ ":").data.isPrefixOf e.1.data))⟩

/-- The filter parameters of `ImpulseAdapter.get_schedule`, already rendered
to the strings the f-string `f"{date_from}_{date_to}_{group_id}"` would
produce for each component (`None` for an absent one). -/
structure ScheduleParams where
  date_from : Option String := none
  date_to : Option String := none
  group_id : Option Int := none
  deriving DecidableEq, Repr

/-- The `f"{x}"` for an optional already-rendered component. -/
def pyShowOptStr : Option String → String
  | none => "None"
  | some s => s

/-- The `f"{x}"` for an optional integer component. -/
def pyShowOptInt : Option Int → String
  | none => "None"
  | some n => toString n

/-- The `cache_key = f"{date_from}_{date_to}_{group_id}"` of `get_schedule`
(`adapter.py`, line 47). -/
def schedule_cache_key (p : ScheduleParams) : String :=
  pyShowOptStr p.date_from ++ "_" ++ pyShowOptStr p.date_to ++ "_" ++
    pyShowOptInt p.group_id

/-- The `ImpulseAdapter.get_schedule` (`adapter.py`, lines 29–81), on its
non-raising path: consult the cache under the params-derived key; on a hit
return the cached list with no network call; on a miss fetch `net` from the
CRM (the network's answer), cache it with the 15-minute schedule TTL and
return it.  The Bool records whether a network call was made. -/
def get_schedule (st : ImpulseCacheState) (now : Nat) (p : ScheduleParams)
    (net : List Schedule) : ImpulseCacheState × List Schedule × Bool :=
  match cache_get st now "schedule" [schedule_cache_key p] with
  | some cached => (st, cached, false)
  | none => (cache_set st now "schedule" net [schedule_cache_key p], net, true)

/-- The `ImpulseAdapter.create_booking` (`adapter.py`, lines 178–225): on CRM
success, invalidate every schedule cache key (`clear_entity("schedule")`)
before returning the reservation; on failure the cache is untouched and the
error propagates (the fallback-queue bookkeeping does not touch the cache). -/
def create_booking (st : ImpulseCacheState) (net : Except PyExc Reservation) :
    ImpulseCacheState × Except PyExc Reservation :=
  match net with
  | Except.ok r => (clear_entity st "schedule", Except.ok r)
  | Except.error e => (st, Except.error e)

/-! ## Booking receipt (`app/core/booking_flow.py`, `_generate_booking_receipt`)

Characters matter here (Python `len`, slicing and `str.replace` count code
points), so the receipt text is modelled as `List Char`. -/

/-- Python `s.replace(old, new)` for a nonempty `old`: replace every
non-overlapping occurrence, scanning left to right.  (For `old = ""` Python
interleaves `new` everywhere; that case is never exercised — the receipt code
replaces the studio address, and the claims concern long addresses — and is
modelled as the identity.) -/
def replaceAll (p t : List Char) : List Char → List Char
  | [] => []
  | c :: s =>
    if h : p ≠ [] ∧ p.isPrefixOf (c :: s) then
      t ++ replaceAll p t ((c :: s).drop p.length)
    else
      c :: replaceAll p t s
termination_by s => s.length
decreasing_by
  · have hp : 0 < p.length := List.length_pos.mpr h.1
    simp only [List.length_drop, List.length_cons]
    omega
  · simp only [List.length_cons]
    omega

/-- Template segment before the direction field. -/
def seg_head : List Char := "✅ Запись подтверждена!\n\nНаправление: ".data

/-- Template segment before the date/time field. -/
def seg_dt : List Char := "\nДата и время: ".data

/-- Template segment before the name field. -/
def seg_name : List Char := "\nИмя: ".data

/-- Template segment before the phone field. -/
def seg_phone : List Char := "\nТелефон: ".data

/-- Template segment before the address field. -/
def seg_addr : List Char := "\nАдрес: ".data

/-- Template segment before the reservation-id field. -/
def seg_resnum : List Char := "\n\nНомер записи: ".data

/-- Trailing template segment. -/
def seg_tail : List Char := "\nНапомню за день до занятия!".data

/-- The `receipt_template.format(...)` (`booking_flow.py`, lines 570–588): the
naive rendering, fields already formatted to their display strings. -/
def booking_receipt_render (group dt name phone address rid : List Char) :
    List Char :=
  seg_head ++ group ++ seg_dt ++ dt ++ seg_name ++ name ++ seg_phone ++ phone ++
    seg_addr ++ address ++ seg_resnum ++ rid ++ seg_tail

/-- Everything of the rendered receipt strictly before the address. -/
def booking_receipt_pre (group dt name phone : List Char) : List Char :=
  seg_head ++ group ++ seg_dt ++ dt ++ seg_name ++ name ++ seg_phone ++ phone ++
    seg_addr

/-- Everything of the rendered receipt strictly after the address. -/
def booking_receipt_post (rid : List Char) : List Char :=
  seg_resnum ++ rid ++ seg_tail

/-- The `max_address_len = 300 - base_length - 3` where
`base_length = len(receipt) - len(studio_address)` (`booking_flow.py`, lines
593–594); Python ints can go negative here, hence `Int`. -/
def max_address_len (receipt address : List Char) : Int :=
  300 - ((receipt.length - address.length : Nat) : Int) - 3

/-- The `truncated_address = studio_address[:max_address_len] + "..."`
(`booking_flow.py`, line 596). -/
def truncated_address (receipt address : List Char) : List Char :=
  address.take (max_address_len receipt address).toNat ++ ("...".data)

/-- The `_generate_booking_receipt` (`booking_flow.py`, lines 569–602) from the
formatted field strings: render the template; if the result exceeds 300
characters, first try to shorten the address field (replacing the address by
its ellipsised prefix), and only when even an empty address could not bring
the receipt under the cap, truncate the whole receipt to 297 characters plus
an ellipsis. -/
def generate_booking_receipt (group dt name phone address rid : List Char) :
    List Char :=
  let receipt := booking_receipt_render group dt name phone address rid
  if 300 < receipt.length then
    if 0 < max_address_len receipt address then
      replaceAll address (truncated_address receipt address) receipt
    else
      receipt.take 297 ++ ("...".data)
  else
    receipt

/-! ## Booking confirmation (`app/core/booking_flow.py`, `confirm_booking`)

The CRM calls made before the idempotency lock (`find_client`,
`create_client`, `get_groups`, `get_schedule`) are modelled as succeeding,
their results supplied by a `ConfirmEnv`; the `create_booking` outcome is an
explicit `Except`.  `datetime_resolved` is carried as the pair
(`target_date.isoformat()`, `target_time.strftime("%H:%M")`) — exactly the
two strings `confirm_booking` compares against schedule entries. -/

/-- Python truthiness of an optional string (`None` and `""` are falsy). -/
def optStrTruthy : Option String → Bool
  | none => false
  | some s => s ≠ ""

/-- Python truthiness of an optional integer (`None` and `0` are falsy). -/
def optIntTruthy : Option Int → Bool
  | none => false
  | some n => n ≠ 0

/-- Models Python `str.lower()` (a standard-library case mapping; the claims
depend only on it being a fixed function of its input). -/
def pyLower (s : String) : String := ⟨s.data.map Char.toLower⟩

/-- The group-name → group-id resolution of `confirm_booking`
(`booking_flow.py`, lines 400–409): if a group slot is set, the first group
whose lower-cased name equals the lower-cased slot value, else `None`. -/
def resolve_group_id (groups : List Group) (slot_group : Option String) :
    Option Int :=
  if optStrTruthy slot_group then
    match groups.find? (fun g => pyLower g.name == pyLower (slot_group.getD "")) with
    | some g => some g.id
    | none => none
  else none

/-- The schedule-entry match of `confirm_booking` (`booking_flow.py`, lines
413–418): exact date string, exact time string, and — when a group id was
resolved (`not group_id` is Python-falsy for `None` and `0`) — the entry's
group id. -/
def schedule_matches (d t : String) (group_id : Option Int) (sch : Schedule) :
    Bool :=
  sch.date == d && sch.time == t &&
    (!(optIntTruthy group_id) || sch.group_id == group_id)

/-- The `datetime.strftime("%d.%m.%Y %H:%M")` reassembled from the ISO date
string and the "HH:MM" time string. -/
def format_datetime_ru (d t : String) : String :=
  (d.drop 8) ++ "." ++ ((d.drop 5).take 2) ++ "." ++ (d.take 4) ++ " " ++ t

/-- Python `x or default` for an optional string slot. -/
def pyOrElse (o : Option String) (dflt : String) : String :=
  if optStrTruthy o then o.getD "" else dflt

/-- The `_generate_booking_receipt(reservation, client, session)` with the studio
address from the knowledge base: formats the fields and applies the 300-char
cap (`generate_booking_receipt`). -/
def receipt_for (session : Session) (client : Client) (r : Reservation)
    (studio_address : String) : String :=
  let group := pyOrElse session.slots.group "не указано"
  let datetime_str :=
    match session.slots.datetime_resolved with
    | some (d, t) => format_datetime_ru d t
    | none => pyOrElse session.slots.datetime_raw "не указано"
  String.mk (generate_booking_receipt group.data datetime_str.data
    client.name.data client.phone.data studio_address.data (toString r.id).data)

/-- The user-facing text of a failed `create_booking`: a `RuntimeError` from
the adapter's error handler carries its classified message (`return str(e)`),
anything else falls back to the generic recorded-request apology. -/
def booking_error_msg : PyExc → String
  | PyExc.runtimeError m => m
  | _ => "Произошла ошибка при создании записи. Записал заявку — администратор подтвердит."

/-- The environment of successful pre-lock CRM calls. -/
structure ConfirmEnv where
  found_client : Option Client
  created_client : Client
  groups : List Group
  schedules : List Schedule
  studio_address : String
  deriving Repr

/-- An idempotency-lock interaction performed during `confirm_booking`. -/
inductive LockEvent where
  | acquireLock (phone schedule_id : String)
  | releaseLock (phone schedule_id : String)
  deriving DecidableEq, Repr

/-- The "no suitable class found, contact admin" message. -/
def no_suitable_msg : String :=
  "Не удалось найти подходящее занятие. Обратитесь к администратору."

/-- The post-resolution part of `confirm_booking` (`booking_flow.py`, lines
425–505): acquire the idempotency lock; on a duplicate, transition to IDLE
and return the already-booked message; otherwise attempt `create_booking` —
on success transition to BOOKING_DONE and return the receipt, on failure
release the lock, transition to IDLE and return the classified message. -/
def confirm_booking_locked (s1 : Session) (client : Client) (st : RedisState)
    (now : Nat) (booking_net : Except PyExc Reservation) (phone sid : String)
    (studio_address : String) : String × Session × RedisState × List LockEvent :=
  let a := acquire_booking_lock st now phone sid
  if a.2.1 = false then
    ((a.2.2), (transition_state s1 ConversationState.IDLE).1, a.1,
     [LockEvent.acquireLock phone sid])
  else
    match booking_net with
    | Except.ok r =>
        (receipt_for s1 client r studio_address,
         (transition_state s1 ConversationState.BOOKING_DONE).1, a.1,
         [LockEvent.acquireLock phone sid])
    | Except.error e =>
        (booking_error_msg e,
         (transition_state s1 ConversationState.IDLE).1,
         release_booking_lock a.1 phone sid,
         [LockEvent.acquireLock phone sid, LockEvent.releaseLock phone sid])

/-- The `confirm_booking` (`booking_flow.py`, lines 366–505) over the modelled
environment: slot guard; transition to BOOKING_IN_PROGRESS; find-or-create
client; resolve a schedule id by the date/time/group match when none is
pinned in the slots (returning the no-suitable-class message — with *no*
further transition and no lock interaction — when nothing matches, or when
the matched id is Python-falsy 0); then the lock/create/receipt sequence. -/
def confirm_booking (session : Session) (env : ConfirmEnv) (st : RedisState)
    (now : Nat) (booking_net : Except PyExc Reservation) :
    String × Session × RedisState × List LockEvent :=
  if !(optStrTruthy session.slots.group) || session.slots.datetime_resolved.isNone then
    ("Не все данные заполнены. Пожалуйста, укажите направление и дату.",
     session, st, [])
  else
    let s1 := (transition_state session ConversationState.BOOKING_IN_PROGRESS).1
    let client := match env.found_client with
      | some c => c
      | none => env.created_client
    let phone := pyShowOptStr s1.slots.client_phone
    if optStrTruthy s1.slots.schedule_id then
      confirm_booking_locked s1 client st now booking_net phone
        (s1.slots.schedule_id.getD "") env.studio_address
    else
      match s1.slots.datetime_resolved with
      | none =>
          ("Не удалось определить дату и время. Пожалуйста, уточните.",
           s1, st, [])
      | some (d, t) =>
          let group_id := resolve_group_id env.groups s1.slots.group
          match env.schedules.find? (schedule_matches d t group_id) with
          | none => (no_suitable_msg, s1, st, [])
          | some sch =>
              if sch.id = 0 then (no_suitable_msg, s1, st, [])
              else
                confirm_booking_locked s1 client st now booking_net phone
                  (toString sch.id) env.studio_address

end Murdance

/-- Claim C7: For every pair of states `(S, T)`, `can_transition S T` is true
exactly when `T` is listed for `S` in the spec's §4.2 transition table;
`transition_state` on a disallowed pair returns `false` and leaves the session
unchanged; and `is_terminal_state` holds only for `BOOKING_DONE`. -/
theorem fsm_matches_spec_and_rejects_unlisted :
    (∀ S T : Murdance.ConversationState,
        Murdance.can_transition S T = Murdance.spec_allows S T) ∧
    (∀ (sess : Murdance.Session) (T : Murdance.ConversationState),
        Murdance.can_transition sess.state T = false →
        Murdance.transition_state sess T = (sess, false)) ∧
    (∀ S : Murdance.ConversationState,
        Murdance.is_terminal_state S = true ↔ S = Murdance.ConversationState.BOOKING_DONE) := by
  refine ⟨by decide, ?_, by decide⟩
  intro sess T h
  simp [Murdance.transition_state, h]

/-- Witness for C7: from `BOOKING_DONE`, the transition to `CONFIRM_BOOKING`
is unlisted, and a session attempting it is left unchanged with result
`false`. -/
theorem fsm_matches_spec_and_rejects_unlisted_witness :
    Murdance.can_transition Murdance.ConversationState.BOOKING_DONE
        Murdance.ConversationState.CONFIRM_BOOKING = false ∧
    Murdance.transition_state
        ⟨Murdance.ConversationState.BOOKING_DONE, {}⟩
        Murdance.ConversationState.CONFIRM_BOOKING =
      (⟨Murdance.ConversationState.BOOKING_DONE, {}⟩, false) :=
  ⟨by decide,
   fsm_matches_spec_and_rejects_unlisted.2.1
     ⟨Murdance.ConversationState.BOOKING_DONE, {}⟩
     Murdance.ConversationState.CONFIRM_BOOKING (by decide)⟩

/-- Reading back a key just set with TTL `ex`, at any instant inside the TTL
window, yields the stored value. -/
theorem rget_rset_same (st : Murdance.RedisState) (now t : Nat) (k v : String)
    (ex : Nat) (h2 : t < now + ex) :
    Murdance.rget (Murdance.rset st now k v ex) t k = some v := by
  simp [Murdance.rget, Murdance.rset, List.find?_cons_of_pos, h2]

/-- A duplicate acquire inside the TTL window: with the lock key live in the
store, `acquire_booking_lock` returns `(false, already-booked)` and leaves the
store untouched. -/
theorem acquire_duplicate (st : Murdance.RedisState) (t : Nat)
    (phone schedule_id : String)
    (h : Murdance.rget st t
        (Murdance.get_idempotency_key
          (Murdance.compute_fingerprint phone schedule_id)) ≠ none) :
    Murdance.acquire_booking_lock st t phone schedule_id =
      (st, false, Murdance.alreadyBookedMsg) := by
  unfold Murdance.acquire_booking_lock Murdance.rsetnx
  cases hg : Murdance.rget st t
      (Murdance.get_idempotency_key
        (Murdance.compute_fingerprint phone schedule_id)) with
  | none => exact absurd hg h
  | some v => simp [hg]

/-- After the first acquire succeeds, every further attempt inside the window
is a no-op returning the already-booked message. -/
theorem runAcquires_after_first (st : Murdance.RedisState) (t0 : Nat)
    (phone schedule_id : String) (ts : List Nat)
    (hts : ∀ t ∈ ts, t < t0 + 600) :
    Murdance.runAcquires
        (Murdance.rset st t0
          (Murdance.get_idempotency_key
            (Murdance.compute_fingerprint phone schedule_id)) "1" 600)
        phone schedule_id ts =
      (Murdance.rset st t0
          (Murdance.get_idempotency_key
            (Murdance.compute_fingerprint phone schedule_id)) "1" 600,
       ts.map (fun _ => (false, Murdance.alreadyBookedMsg))) := by
  induction ts with
  | nil => rfl
  | cons t ts ih =>
      have hdup := acquire_duplicate
        (Murdance.rset st t0
          (Murdance.get_idempotency_key
            (Murdance.compute_fingerprint phone schedule_id)) "1" 600)
        t phone schedule_id
        (by rw [rget_rset_same st t0 t _ "1" 600 (hts t (List.mem_cons_self t ts))]; simp)
      simp only [Murdance.runAcquires, hdup,
        ih (fun u hu => hts u (List.mem_cons_of_mem t hu)), List.map]

/-- Claim C1: For every phone and schedule identifier: in a run of `1 + n`
acquire attempts for the same `(phone, schedule_id)` pair, the first at
instant `t0` (with no live lock for the fingerprint key), all later ones
inside the 10-minute TTL window and with no intervening release, the first
attempt sets key `idempotency:{sha256_hex(phone ++ schedule_id)}` and returns
`(true, "")`; every later attempt returns `(false, already-booked)` and the
final store is exactly the store the first attempt produced — the duplicates
performed no further action. -/
theorem idempotency_lock_single_winner (st : Murdance.RedisState) (t0 : Nat)
    (phone schedule_id : String) (ts : List Nat)
    (hfree : Murdance.rget st t0
        (Murdance.get_idempotency_key
          (Murdance.compute_fingerprint phone schedule_id)) = none)
    (hts : ∀ t ∈ ts, t < t0 + 600) :
    Murdance.runAcquires st phone schedule_id (t0 :: ts) =
      (Murdance.rset st t0
          (Murdance.get_idempotency_key
            (Murdance.compute_fingerprint phone schedule_id)) "1" 600,
       (true, "") :: ts.map (fun _ => (false, Murdance.alreadyBookedMsg))) ∧
    Murdance.rget
        (Murdance.runAcquires st phone schedule_id (t0 :: ts)).1 t0
        (Murdance.get_idempotency_key
          (Murdance.compute_fingerprint phone schedule_id)) = some "1" := by
  have hacq : Murdance.acquire_booking_lock st t0 phone schedule_id =
      (Murdance.rset st t0
        (Murdance.get_idempotency_key
          (Murdance.compute_fingerprint phone schedule_id)) "1" 600,
       true, "") := by
    unfold Murdance.acquire_booking_lock Murdance.rsetnx
    simp [hfree]
  have hrun : Murdance.runAcquires st phone schedule_id (t0 :: ts) =
      (Murdance.rset st t0
          (Murdance.get_idempotency_key
            (Murdance.compute_fingerprint phone schedule_id)) "1" 600,
       (true, "") :: ts.map (fun _ => (false, Murdance.alreadyBookedMsg))) := by
    simp only [Murdance.runAcquires, hacq,
      runAcquires_after_first st t0 phone schedule_id ts hts]
  refine ⟨hrun, ?_⟩
  rw [hrun]
  exact rget_rset_same st t0 t0 _ "1" 600 (by omega)

/-- Witness for C1: three attempts at instants 0, 1, 599 on an empty store —
the first wins, the two others get the already-booked message and change
nothing. -/
theorem idempotency_lock_single_winner_witness :
    Murdance.runAcquires Murdance.RedisState.empty "79990001122" "42" [0, 1, 599] =
      (Murdance.rset Murdance.RedisState.empty 0
          (Murdance.get_idempotency_key
            (Murdance.compute_fingerprint "79990001122" "42")) "1" 600,
       [(true, ""), (false, Murdance.alreadyBookedMsg),
        (false, Murdance.alreadyBookedMsg)]) :=
  (idempotency_lock_single_winner Murdance.RedisState.empty 0 "79990001122" "42"
      [1, 599] rfl (by decide)).1

/-- Claim C2 counterexample: The claim says a failing trial call re-opens the
breaker.  Concretely: a fresh breaker receives 5 consecutive failures at
time 0 (it is then open); at time 61 the trial call is allowed, and when that
trial call fails, the breaker is *not* re-opened — `should_attempt` already
closed it and zeroed the count, so the failure leaves it closed with
`failure_count = 1`. -/
theorem breaker_trial_failure_not_reopened :
    (Murdance.recordFailures {} 0 5).is_open = true ∧
    (Murdance.should_attempt (Murdance.recordFailures {} 0 5) 61).2 = true ∧
    ((Murdance.record_failure
        (Murdance.should_attempt (Murdance.recordFailures {} 0 5) 61).1 61).1).is_open
      = false ∧
    ((Murdance.record_failure
        (Murdance.should_attempt (Murdance.recordFailures {} 0 5) 61).1 61).1).failure_count
      = 1 := by
  decide

/-- Claim C2 amended: The breaker starts closed and opens after 5 consecutive
recorded failures; while open and within 60 seconds of the last recorded
failure every call is rejected immediately with the breaker-open
`RuntimeError` and no network request is attempted (even through the retry
wrapper, which does not retry `RuntimeError`); once strictly more than 60
seconds have elapsed since the last recorded failure, `should_attempt` lets a
trial call through, *closing the breaker and zeroing the failure count before
the call*; a successful trial leaves the breaker closed with count 0, and a
*failing* trial does not re-open the breaker: it leaves it closed with
`failure_count = 1` (5 fresh consecutive failures are needed to re-open it). -/
theorem breaker_lifecycle :
    (({} : Murdance.CircuitBreaker).is_open = false) ∧
    (∀ now : Nat, (Murdance.recordFailures {} now 5).is_open = true) ∧
    (∀ (s : Murdance.CircuitBreaker) (now t : Nat) (net : Murdance.NetOutcome)
        (nets : Nat → Murdance.NetOutcome),
        s.is_open = true → s.last_failure_time = some t → s.timeout_seconds = 60 →
        now - t ≤ 60 →
        Murdance.requestBody s now net =
          ⟨s, Except.error (Murdance.PyExc.runtimeError "Circuit breaker is open"), false⟩ ∧
        Murdance.requestWithRetry s now nets =
          ⟨s, Except.error (Murdance.PyExc.runtimeError "Circuit breaker is open"), 0, []⟩) ∧
    (∀ (s : Murdance.CircuitBreaker) (now t : Nat),
        s.is_open = true → s.last_failure_time = some t → s.timeout_seconds = 60 →
        60 < now - t →
        Murdance.should_attempt s now =
          ({ s with is_open := false, failure_count := 0 }, true) ∧
        ((Murdance.requestBody s now Murdance.NetOutcome.ok).state.is_open = false ∧
         (Murdance.requestBody s now Murdance.NetOutcome.ok).state.failure_count = 0 ∧
         (Murdance.requestBody s now Murdance.NetOutcome.ok).attempted = true) ∧
        (∀ e : Murdance.PyExc,
          s.failure_threshold = 5 →
          (Murdance.requestBody s now (Murdance.NetOutcome.raises e)).state.is_open = false ∧
          (Murdance.requestBody s now (Murdance.NetOutcome.raises e)).state.failure_count = 1 ∧
          (Murdance.requestBody s now (Murdance.NetOutcome.raises e)).attempted = true)) := by
  refine ⟨rfl, fun now => rfl, ?_, ?_⟩
  · intro s now t net nets hopen hlast htimo hle
    have hcond : ¬ s.timeout_seconds < now - t := by omega
    have hsa : Murdance.should_attempt s now = (s, false) := by
      simp [Murdance.should_attempt, hopen, hlast, hcond]
    constructor
    · simp [Murdance.requestBody, hsa]
    · simp [Murdance.requestWithRetry, Murdance.retryLoop, Murdance.requestBody, hsa,
        Murdance.retryOnExc, Murdance.isHttpError, Murdance.isTimeoutException]
  · intro s now t hopen hlast htimo hlt
    have hcond : s.timeout_seconds < now - t := by omega
    have hsa : Murdance.should_attempt s now =
        ({ s with is_open := false, failure_count := 0 }, true) := by
      simp [Murdance.should_attempt, hopen, hlast, hcond]
    refine ⟨hsa, ?_, ?_⟩
    · simp [Murdance.requestBody, hsa, Murdance.record_success]
    · intro e hthresh
      simp [Murdance.requestBody, hsa, Murdance.record_failure, hthresh]

/-- Witness for C2 (amended): a breaker open since time 0 rejects a call at
time 30 without a network attempt, and at time 61 allows the trial and a
failing trial leaves it closed with count 1. -/
theorem breaker_lifecycle_witness :
    (Murdance.requestBody (Murdance.recordFailures {} 0 5) 30 Murdance.NetOutcome.ok).attempted
      = false ∧
    (Murdance.requestBody (Murdance.recordFailures {} 0 5) 61
        (Murdance.NetOutcome.raises Murdance.PyExc.transportError)).state.is_open = false := by
  have h3 := breaker_lifecycle.2.2.1 (Murdance.recordFailures {} 0 5) 30 0
    Murdance.NetOutcome.ok (fun _ => Murdance.NetOutcome.ok)
    (by decide) (by decide) (by decide) (by decide)
  have h4 := breaker_lifecycle.2.2.2 (Murdance.recordFailures {} 0 5) 61 0
    (by decide) (by decide) (by decide) (by decide)
  refine ⟨?_, ?_⟩
  · rw [h3.1]
  · exact (h4.2.2 Murdance.PyExc.transportError (by decide)).1

/-- Claim C3 counterexample: The claim says HTTP 4xx application errors are not
retried.  In the code the retry predicate is
`retry_if_exception_type((httpx.HTTPError, httpx.TimeoutException))`, and
`httpx.HTTPStatusError` — what `raise_for_status` raises on a 400 — is a
subclass of `httpx.HTTPError`.  Concretely: with a fresh breaker, a request
whose every attempt yields HTTP 400 issues 3 network attempts (with backoff
pauses 1 s and 2 s), not 1, and each attempt records a breaker failure. -/
theorem http_400_is_retried :
    (Murdance.requestWithRetry {} 0
        (fun _ => Murdance.NetOutcome.raises (Murdance.PyExc.httpStatusError 400))).networkAttempts
      = 3 ∧
    (Murdance.requestWithRetry {} 0
        (fun _ => Murdance.NetOutcome.raises (Murdance.PyExc.httpStatusError 400))).waits
      = [1, 2] ∧
    (Murdance.requestWithRetry {} 0
        (fun _ => Murdance.NetOutcome.raises (Murdance.PyExc.httpStatusError 400))).state.failure_count
      = 3 := by
  decide

/-- Claim C3 amended: Every `httpx` exception — network-layer transport errors,
timeouts, *and* HTTP status errors such as 4xx (since `HTTPStatusError`
subclasses `httpx.HTTPError`, the retry predicate) — is retried up to 3
attempts total with exponential backoff (base 1 s, cap 10 s: pauses 1 s then
2 s); each failed attempt, not only the last, records a failure with the
circuit breaker; after the attempt budget is exhausted the last failure is
surfaced to the caller; a success stops the retrying immediately. -/
theorem retry_budget_and_backoff :
    (∀ code : Nat,
        Murdance.retryOnExc (Murdance.PyExc.httpStatusError code) = true) ∧
    (∀ (e : Murdance.PyExc) (now : Nat), Murdance.retryOnExc e = true →
      Murdance.requestWithRetry {} now (fun _ => Murdance.NetOutcome.raises e) =
        ⟨⟨5, 60, 3, some now, false⟩, Except.error e, 3, [1, 2]⟩) ∧
    (∀ (e : Murdance.PyExc) (now : Nat), Murdance.retryOnExc e = true →
      Murdance.requestWithRetry {} now
          (fun n => if n = 1 then Murdance.NetOutcome.raises e else Murdance.NetOutcome.ok) =
        ⟨⟨5, 60, 0, none, false⟩, Except.ok (), 2, [1]⟩) := by
  refine ⟨fun code => rfl, ?_, ?_⟩
  · intro e now h
    simp [Murdance.requestWithRetry, Murdance.retryLoop, Murdance.requestBody,
      Murdance.should_attempt, Murdance.record_failure, Murdance.record_success,
      Murdance.waitExponential, h]
  · intro e now h
    simp [Murdance.requestWithRetry, Murdance.retryLoop, Murdance.requestBody,
      Murdance.should_attempt, Murdance.record_failure, Murdance.record_success,
      Murdance.waitExponential, h]

/-- Witness for C3 (amended): a run of three consecutive timeouts at time 7
makes 3 network attempts with pauses [1, 2] and surfaces the timeout; a
timeout followed by a success makes 2 attempts and succeeds. -/
theorem retry_budget_and_backoff_witness :
    Murdance.requestWithRetry {} 7
        (fun _ => Murdance.NetOutcome.raises Murdance.PyExc.timeoutError) =
      ⟨⟨5, 60, 3, some 7, false⟩, Except.error Murdance.PyExc.timeoutError, 3, [1, 2]⟩ ∧
    Murdance.requestWithRetry {} 7
        (fun n => if n = 1 then Murdance.NetOutcome.raises Murdance.PyExc.timeoutError
                  else Murdance.NetOutcome.ok) =
      ⟨⟨5, 60, 0, none, false⟩, Except.ok (), 2, [1]⟩ :=
  ⟨retry_budget_and_backoff.2.1 Murdance.PyExc.timeoutError 7 (by decide),
   retry_budget_and_backoff.2.2 Murdance.PyExc.timeoutError 7 (by decide)⟩

/-- Refreshing a bucket's TTL does not change its stored value. -/
@[simp] theorem bucket_current_expire (b : Murdance.Bucket) (n : Nat) :
    Murdance.bucket_current (Murdance.bucket_expire b n) =
      Murdance.bucket_current b := by
  cases h : b.value <;> simp [Murdance.bucket_expire, Murdance.bucket_current, h]

/-- Incrementing a bucket adds to its stored value. -/
@[simp] theorem bucket_current_incr (b : Murdance.Bucket) (a : Nat) :
    Murdance.bucket_current (Murdance.bucket_incr b a).1 =
      Murdance.bucket_current b + a := by
  simp [Murdance.bucket_incr, Murdance.bucket_current]

/-- A bucket whose read-back value is positive holds that value. -/
theorem bucket_value_of_current_pos (b : Murdance.Bucket) (n : Nat)
    (hn : 0 < n) (h : Murdance.bucket_current b = n) : b.value = some n := by
  cases hv : b.value with
  | none => simp [Murdance.bucket_current, hv] at h; omega
  | some m => simp [Murdance.bucket_current, hv] at h; simp [hv, h]

/-- Claim C5: With `max_tokens_per_hour = 100000` and the hour bucket at 99999,
a request for 2 tokens is rejected, the bucket stays at 99999 and its TTL is
refreshed to 3600 s without incrementing; a request for 1 token is accepted
and the bucket becomes exactly 100000; and in general a request is rejected
exactly when `current + amount` strictly exceeds the configured limit. -/
theorem token_budget_boundary :
    (∀ (s : Murdance.Settings) (st : Murdance.BudgetState),
      s.max_tokens_per_hour = 100000 →
      Murdance.bucket_current st.tokensHour = 99999 →
      (Murdance.check_tokens_per_hour s st 2).2 = (false, 99999) ∧
      Murdance.bucket_current
        (Murdance.check_tokens_per_hour s st 2).1.tokensHour = 99999 ∧
      (Murdance.check_tokens_per_hour s st 2).1.tokensHour.ttl = some 3600 ∧
      (Murdance.check_tokens_per_hour s st 1).2 = (true, 100000) ∧
      Murdance.bucket_current
        (Murdance.check_tokens_per_hour s st 1).1.tokensHour = 100000) ∧
    (∀ (s : Murdance.Settings) (st : Murdance.BudgetState) (amount : Nat),
      (Murdance.check_tokens_per_hour s st amount).2.1 = false ↔
        s.max_tokens_per_hour <
          Murdance.bucket_current st.tokensHour + amount) := by
  constructor
  · intro s st hs hcur
    have hv : st.tokensHour.value = some 99999 :=
      bucket_value_of_current_pos st.tokensHour 99999 (by omega) hcur
    refine ⟨?_, ?_, ?_, ?_, ?_⟩ <;>
      simp [Murdance.check_tokens_per_hour, hs, hcur, hv,
        Murdance.bucket_expire, Murdance.bucket_incr, Murdance.bucket_current]
  · intro s st amount
    by_cases h : s.max_tokens_per_hour <
        Murdance.bucket_current st.tokensHour + amount <;>
      simp [Murdance.check_tokens_per_hour, h]

/-- Witness for C5: from a bucket holding 99999 under the default limit
100000, 2 tokens are refused at 99999 and 1 token is accepted to 100000. -/
theorem token_budget_boundary_witness :
    (Murdance.check_tokens_per_hour {}
        { tokensHour := { value := some 99999 } } 2).2 = (false, 99999) ∧
    (Murdance.check_tokens_per_hour {}
        { tokensHour := { value := some 99999 } } 1).2 = (true, 100000) :=
  ⟨(token_budget_boundary.1 {} { tokensHour := { value := some 99999 } }
      rfl rfl).1,
   (token_budget_boundary.1 {} { tokensHour := { value := some 99999 } }
      rfl rfl).2.2.2.1⟩

/-- Claim C6: `check_all_limits(tokens, cost)` evaluates requests-per-minute,
tokens-per-hour and cost-per-day in that order, stops at the first failing
check and returns its breach reason; a counter already incremented by an
earlier check in the same composite call is not rolled back when a later
check breaches. -/
theorem composite_check_order_and_no_rollback
    (s : Murdance.Settings) (st : Murdance.BudgetState)
    (tokens cost_cents : Nat) :
    (s.max_requests_per_minute < Murdance.bucket_current st.requestsMinute + 1 →
      (Murdance.check_all_limits s st tokens cost_cents).2 =
        (false, "MAX_REQUESTS_PER_MINUTE exceeded") ∧
      Murdance.bucket_current
        (Murdance.check_all_limits s st tokens cost_cents).1.requestsMinute =
        Murdance.bucket_current st.requestsMinute ∧
      (Murdance.check_all_limits s st tokens cost_cents).1.tokensHour =
        st.tokensHour ∧
      (Murdance.check_all_limits s st tokens cost_cents).1.costDay =
        st.costDay) ∧
    (Murdance.bucket_current st.requestsMinute + 1 ≤ s.max_requests_per_minute →
     s.max_tokens_per_hour < Murdance.bucket_current st.tokensHour + tokens →
      (Murdance.check_all_limits s st tokens cost_cents).2 =
        (false, "MAX_TOKENS_PER_HOUR exceeded") ∧
      Murdance.bucket_current
        (Murdance.check_all_limits s st tokens cost_cents).1.requestsMinute =
        Murdance.bucket_current st.requestsMinute + 1 ∧
      Murdance.bucket_current
        (Murdance.check_all_limits s st tokens cost_cents).1.tokensHour =
        Murdance.bucket_current st.tokensHour ∧
      (Murdance.check_all_limits s st tokens cost_cents).1.costDay =
        st.costDay) ∧
    (Murdance.bucket_current st.requestsMinute + 1 ≤ s.max_requests_per_minute →
     Murdance.bucket_current st.tokensHour + tokens ≤ s.max_tokens_per_hour →
     s.max_cost_per_day_cents < Murdance.bucket_current st.costDay + cost_cents →
      (Murdance.check_all_limits s st tokens cost_cents).2 =
        (false, "MAX_COST_PER_DAY_USD exceeded") ∧
      Murdance.bucket_current
        (Murdance.check_all_limits s st tokens cost_cents).1.requestsMinute =
        Murdance.bucket_current st.requestsMinute + 1 ∧
      Murdance.bucket_current
        (Murdance.check_all_limits s st tokens cost_cents).1.tokensHour =
        Murdance.bucket_current st.tokensHour + tokens ∧
      Murdance.bucket_current
        (Murdance.check_all_limits s st tokens cost_cents).1.costDay =
        Murdance.bucket_current st.costDay) ∧
    (Murdance.bucket_current st.requestsMinute + 1 ≤ s.max_requests_per_minute →
     Murdance.bucket_current st.tokensHour + tokens ≤ s.max_tokens_per_hour →
     Murdance.bucket_current st.costDay + cost_cents ≤ s.max_cost_per_day_cents →
      (Murdance.check_all_limits s st tokens cost_cents).2 = (true, "") ∧
      Murdance.bucket_current
        (Murdance.check_all_limits s st tokens cost_cents).1.requestsMinute =
        Murdance.bucket_current st.requestsMinute + 1 ∧
      Murdance.bucket_current
        (Murdance.check_all_limits s st tokens cost_cents).1.tokensHour =
        Murdance.bucket_current st.tokensHour + tokens ∧
      Murdance.bucket_current
        (Murdance.check_all_limits s st tokens cost_cents).1.costDay =
        Murdance.bucket_current st.costDay + cost_cents) := by
  refine ⟨?_, ?_, ?_, ?_⟩
  · intro h1
    simp [Murdance.check_all_limits, Murdance.check_requests_per_minute, h1]
  · intro h1 h2
    have h1n : ¬ s.max_requests_per_minute <
        Murdance.bucket_current st.requestsMinute + 1 := by omega
    simp [Murdance.check_all_limits, Murdance.check_requests_per_minute,
      Murdance.check_tokens_per_hour, h1n, h2]
  · intro h1 h2 h3
    have h1n : ¬ s.max_requests_per_minute <
        Murdance.bucket_current st.requestsMinute + 1 := by omega
    have h2n : ¬ s.max_tokens_per_hour <
        Murdance.bucket_current st.tokensHour + tokens := by omega
    simp [Murdance.check_all_limits, Murdance.check_requests_per_minute,
      Murdance.check_tokens_per_hour, Murdance.check_cost_per_day, h1n, h2n, h3]
  · intro h1 h2 h3
    have h1n : ¬ s.max_requests_per_minute <
        Murdance.bucket_current st.requestsMinute + 1 := by omega
    have h2n : ¬ s.max_tokens_per_hour <
        Murdance.bucket_current st.tokensHour + tokens := by omega
    have h3n : ¬ s.max_cost_per_day_cents <
        Murdance.bucket_current st.costDay + cost_cents := by omega
    simp [Murdance.check_all_limits, Murdance.check_requests_per_minute,
      Murdance.check_tokens_per_hour, Murdance.check_cost_per_day, h1n, h2n, h3n]

/-- Witness for C6: with the default limits, empty request and cost buckets
and a full token bucket, a composite check for 1 token breaches on tokens but
leaves the request counter incremented at 1. -/
theorem composite_check_order_and_no_rollback_witness :
    (Murdance.check_all_limits {} { tokensHour := { value := some 100000 } } 1 1).2 =
      (false, "MAX_TOKENS_PER_HOUR exceeded") ∧
    Murdance.bucket_current
      (Murdance.check_all_limits {}
        { tokensHour := { value := some 100000 } } 1 1).1.requestsMinute = 1 := by
  have h := (composite_check_order_and_no_rollback {}
    { tokensHour := { value := some 100000 } } 1 1).2.1
    (by decide) (by decide)
  exact ⟨h.1, h.2.1⟩

/-- Claim C10: `is_breached` reports a breach when any counter's stored value is
greater than or equal to its configured limit, whereas the check-and-increment
operations reject only when `current + amount` strictly exceeds the limit; so
after an accepted request brings the token bucket exactly to
`max_tokens_per_hour`, `is_breached` returns true even though no
check-and-increment call was refused. -/
theorem is_breached_ge_vs_check_gt :
    (∀ (s : Murdance.Settings) (st : Murdance.BudgetState),
      Murdance.is_breached s st = true ↔
        (s.max_tokens_per_hour ≤ Murdance.bucket_current st.tokensHour ∨
         s.max_cost_per_day_cents ≤ Murdance.bucket_current st.costDay ∨
         s.max_requests_per_minute ≤ Murdance.bucket_current st.requestsMinute ∨
         s.max_errors_per_hour ≤ Murdance.bucket_current st.errorsHour)) ∧
    (∀ (s : Murdance.Settings) (st : Murdance.BudgetState) (amount : Nat),
      (Murdance.check_tokens_per_hour s st amount).2.1 = true ↔
        Murdance.bucket_current st.tokensHour + amount ≤ s.max_tokens_per_hour) ∧
    (∀ (s : Murdance.Settings) (st : Murdance.BudgetState) (amount : Nat),
      Murdance.bucket_current st.tokensHour + amount = s.max_tokens_per_hour →
      (Murdance.check_tokens_per_hour s st amount).2.1 = true ∧
      Murdance.is_breached s (Murdance.check_tokens_per_hour s st amount).1 = true) := by
  refine ⟨?_, ?_, ?_⟩
  · intro s st
    simp [Murdance.is_breached, Bool.or_eq_true, or_assoc]
  · intro s st amount
    by_cases h : s.max_tokens_per_hour <
        Murdance.bucket_current st.tokensHour + amount <;>
      simp [Murdance.check_tokens_per_hour, h] <;> omega
  · intro s st amount h
    have hn : ¬ s.max_tokens_per_hour <
        Murdance.bucket_current st.tokensHour + amount := by omega
    constructor
    · simp [Murdance.check_tokens_per_hour, hn]
    · simp [Murdance.check_tokens_per_hour, hn, Murdance.is_breached, h]

/-- Witness for C10: an empty token bucket accepting exactly
`max_tokens_per_hour` (default 100000) tokens is not refused, yet the
resulting state is reported breached. -/
theorem is_breached_ge_vs_check_gt_witness :
    (Murdance.check_tokens_per_hour {} {} 100000).2.1 = true ∧
    Murdance.is_breached {} (Murdance.check_tokens_per_hour {} {} 100000).1 = true :=
  is_breached_ge_vs_check_gt.2.2 {} {} 100000 rfl

/-- The flat cache key for the schedule entity is the schedule prefix
followed by the params key. -/
theorem impulse_cache_key_schedule (ck : String) :
    Murdance.impulse_cache_key "schedule" [ck] = "impulse:cache:schedule:" ++ ck := rfl

/-- Every schedule cache key matches the `impulse:cache:schedule:*` deletion
pattern. -/
theorem schedule_key_matches_pattern (ck : String) :
    ("impulse:cache:" ++ "schedule" ++ ":").data.isPrefixOf
      (Murdance.impulse_cache_key "schedule" [ck]).data = true := by
  rw [impulse_cache_key_schedule]
  have h : ("impulse:cache:" ++ "schedule" ++ ":") = "impulse:cache:schedule:" := rfl
  rw [h, String.data_append]
  exact List.isPrefixOf_iff_prefix.mpr (List.prefix_append _ _)

/-- After `clear_entity "schedule"`, no schedule key can be read back. -/
theorem cache_get_after_clear (st : Murdance.ImpulseCacheState) (now : Nat)
    (ck : String) :
    Murdance.cache_get (Murdance.clear_entity st "schedule") now "schedule" [ck]
      = none := by
  have hfind : List.find?
      (fun e => e.1 == Murdance.impulse_cache_key "schedule" [ck] && now < e.2.2)
      (Murdance.clear_entity st "schedule").entries = none := by
    apply List.find?_eq_none.mpr
    intro e he hpe
    have hmem := List.mem_filter.mp he
    have hkey : e.1 = Murdance.impulse_cache_key "schedule" [ck] :=
      eq_of_beq (Bool.and_elim_left hpe)
    have hpref := schedule_key_matches_pattern ck
    rw [← hkey] at hpref
    have hneg : (!(("impulse:cache:" ++ "schedule" ++ ":").data.isPrefixOf e.1.data))
        = true := hmem.2
    rw [hpref] at hneg
    simp at hneg
  simp only [Murdance.cache_get]
  rw [hfind]

/-- A schedule entry just cached is read back unchanged at any instant within
its 15-minute TTL. -/
theorem cache_get_after_set (st : Murdance.ImpulseCacheState) (now now2 : Nat)
    (v : List Murdance.Schedule) (ck : String) (h : now2 < now + 900) :
    Murdance.cache_get (Murdance.cache_set st now "schedule" v [ck]) now2
      "schedule" [ck] = some v := by
  simp [Murdance.cache_get, Murdance.cache_set, Murdance.cache_ttl,
    List.find?_cons_of_pos, h]

/-- Claim C4: A `get_schedule` call with given filter parameters populates the
schedule cache under the params-derived key; an identical call within the
15-minute TTL returns the cached result without a network call; a successful
`create_booking` deletes every cached schedule entry before returning, so the
next `get_schedule` — with any parameters — misses the cache and issues a
network call. -/
theorem schedule_cache_round_trip
    (st : Murdance.ImpulseCacheState) (now now2 now3 : Nat)
    (p p2 : Murdance.ScheduleParams) (net net2 net3 : List Murdance.Schedule)
    (r : Murdance.Reservation)
    (hmiss : Murdance.cache_get st now "schedule"
        [Murdance.schedule_cache_key p] = none)
    (hfresh : now2 < now + 900) :
    Murdance.get_schedule st now p net =
      (Murdance.cache_set st now "schedule" net [Murdance.schedule_cache_key p],
       net, true) ∧
    Murdance.get_schedule (Murdance.get_schedule st now p net).1 now2 p net2 =
      ((Murdance.get_schedule st now p net).1, net, false) ∧
    (∀ e ∈ (Murdance.create_booking (Murdance.get_schedule st now p net).1
        (Except.ok r)).1.entries,
      ("impulse:cache:" ++ "schedule" ++ ":").data.isPrefixOf e.1.data = false) ∧
    (Murdance.get_schedule
        (Murdance.create_booking (Murdance.get_schedule st now p net).1
          (Except.ok r)).1 now3 p2 net3).2.2 = true := by
  have h1 : Murdance.get_schedule st now p net =
      (Murdance.cache_set st now "schedule" net [Murdance.schedule_cache_key p],
       net, true) := by
    simp [Murdance.get_schedule, hmiss]
  refine ⟨h1, ?_, ?_, ?_⟩
  · rw [h1]
    simp [Murdance.get_schedule,
      cache_get_after_set st now now2 net (Murdance.schedule_cache_key p) hfresh]
  · intro e he
    rw [h1] at he
    simp only [Murdance.create_booking] at he
    have hmem := List.mem_filter.mp he
    simpa using hmem.2
  · rw [h1]
    simp only [Murdance.create_booking]
    simp [Murdance.get_schedule, cache_get_after_clear]

/-- Witness for C4: starting from an empty cache at instant 0, the round trip
runs with a one-entry schedule list and default filter parameters. -/
theorem schedule_cache_round_trip_witness :
    Murdance.get_schedule Murdance.ImpulseCacheState.empty 0 {}
        [{ id := 1, date := "2026-10-12", time := "19:00" }] =
      (Murdance.cache_set Murdance.ImpulseCacheState.empty 0 "schedule"
        [{ id := 1, date := "2026-10-12", time := "19:00" }]
        [Murdance.schedule_cache_key {}],
       [{ id := 1, date := "2026-10-12", time := "19:00" }], true) ∧
    (Murdance.get_schedule
        (Murdance.create_booking
          (Murdance.get_schedule Murdance.ImpulseCacheState.empty 0 {}
            [{ id := 1, date := "2026-10-12", time := "19:00" }]).1
          (Except.ok { id := 7, client_id := 3, schedule_id := 1 })).1
        600 {} []).2.2 = true := by
  have h := schedule_cache_round_trip Murdance.ImpulseCacheState.empty 0 1 600
    {} {} [{ id := 1, date := "2026-10-12", time := "19:00" }] [] []
    { id := 7, client_id := 3, schedule_id := 1 } rfl (by decide)
  exact ⟨h.1, h.2.2.2⟩

/-- Replacing by a no-longer string never lengthens the text. -/
theorem replaceAll_length_le (p t : List Char) (h : t.length ≤ p.length) :
    ∀ s : List Char, (Murdance.replaceAll p t s).length ≤ s.length := by
  have H : ∀ (n : Nat) (s : List Char), s.length ≤ n →
      (Murdance.replaceAll p t s).length ≤ s.length := by
    intro n
    induction n with
    | zero =>
        intro s hs
        have hnil : s = [] := List.length_eq_zero.mp (Nat.le_zero.mp hs)
        subst hnil
        simp [Murdance.replaceAll]
    | succ n ih =>
        intro s hs
        cases s with
        | nil => simp [Murdance.replaceAll]
        | cons c s' =>
            rw [Murdance.replaceAll]
            split
            · next hcond =>
                have hp : 0 < p.length := List.length_pos.mpr hcond.1
                have hple : p.length ≤ (c :: s').length :=
                  (List.isPrefixOf_iff_prefix.mp hcond.2).length_le
                have hdrop := ih ((c :: s').drop p.length)
                  (by simp only [List.length_drop, List.length_cons]
                      simp only [List.length_cons] at hs
                      omega)
                rw [List.length_append]
                have hd : ((c :: s').drop p.length).length =
                    (c :: s').length - p.length := List.length_drop _ _
                omega
            · next hcond =>
                have hs' : s'.length ≤ n := by
                  simp only [List.length_cons] at hs
                  omega
                have := ih s' hs'
                simp only [List.length_cons]
                omega
  intro s
  exact H s.length s le_rfl

/-- When no occurrence of `p` starts inside `a`, replacing `p` in
`a ++ (p ++ b)` replaces the explicit occurrence and continues in `b` only. -/
theorem replaceAll_once (p t b : List Char) (hp : p ≠ []) :
    ∀ a : List Char,
      (∀ i < a.length, ¬ p.isPrefixOf ((a ++ (p ++ b)).drop i)) →
      Murdance.replaceAll p t (a ++ (p ++ b)) =
        a ++ (t ++ Murdance.replaceAll p t b) := by
  intro a
  induction a with
  | nil =>
      intro _
      simp only [List.nil_append]
      cases p with
      | nil => exact absurd rfl hp
      | cons c p' =>
          have hpre : (c :: p').isPrefixOf ((c :: p') ++ b) = true :=
            List.isPrefixOf_iff_prefix.mpr (List.prefix_append _ _)
          rw [show (c :: p') ++ b = c :: (p' ++ b) from rfl, Murdance.replaceAll,
            dif_pos ⟨List.cons_ne_nil c p', hpre⟩]
          rw [show (c :: (p' ++ b)).drop (c :: p').length =
              (p' ++ b).drop p'.length from by
            rw [List.length_cons, List.drop_succ_cons]]
          rw [List.drop_left]
  | cons c a' ih =>
      intro hno
      have h0 : ¬ (p.isPrefixOf ((c :: a') ++ (p ++ b)) = true) := by
        have h := hno 0 (by simp)
        simpa using h
      rw [show (c :: a') ++ (p ++ b) = c :: (a' ++ (p ++ b)) from rfl,
        Murdance.replaceAll, dif_neg (fun hcond => h0 hcond.2)]
      have hshift : ∀ i < a'.length, ¬ p.isPrefixOf ((a' ++ (p ++ b)).drop i) := by
        intro i hi
        have h := hno (i + 1) (by simp only [List.length_cons]; omega)
        rwa [show ((c :: a') ++ (p ++ b)).drop (i + 1) =
            (a' ++ (p ++ b)).drop i from List.drop_succ_cons] at h
      rw [ih hshift]
      rfl

/-- Claim C8: For a booking whose naively rendered receipt exceeds 300
characters while the non-address part leaves room (`max_address_len > 0`, i.e.
the overflow is attributable to the studio address) and the address text does
not occur inside the receipt before the address field itself: the produced
receipt is at most 300 characters, is obtained by replacing the address with
its ellipsised prefix (the whole receipt is not truncated), and still contains
the direction, date/time, name and phone fields. -/
theorem receipt_cap_preserves_fields
    (group dt name phone address rid : List Char)
    (hover : 300 <
      (Murdance.booking_receipt_render group dt name phone address rid).length)
    (hroom : 0 < Murdance.max_address_len
      (Murdance.booking_receipt_render group dt name phone address rid) address)
    (hnomatch : ∀ i < (Murdance.booking_receipt_pre group dt name phone).length,
      ¬ address.isPrefixOf
        ((Murdance.booking_receipt_render group dt name phone address rid).drop i)) :
    (Murdance.generate_booking_receipt group dt name phone address rid).length ≤ 300 ∧
    Murdance.generate_booking_receipt group dt name phone address rid =
      Murdance.booking_receipt_pre group dt name phone ++
        (Murdance.truncated_address
            (Murdance.booking_receipt_render group dt name phone address rid) address ++
          Murdance.replaceAll address
            (Murdance.truncated_address
              (Murdance.booking_receipt_render group dt name phone address rid) address)
            (Murdance.booking_receipt_post rid)) ∧
    group <:+: Murdance.generate_booking_receipt group dt name phone address rid ∧
    dt <:+: Murdance.generate_booking_receipt group dt name phone address rid ∧
    name <:+: Murdance.generate_booking_receipt group dt name phone address rid ∧
    phone <:+: Murdance.generate_booking_receipt group dt name phone address rid ∧
    Murdance.truncated_address
        (Murdance.booking_receipt_render group dt name phone address rid) address <:+:
      Murdance.generate_booking_receipt group dt name phone address rid := by
  have hdecomp : Murdance.booking_receipt_render group dt name phone address rid =
      Murdance.booking_receipt_pre group dt name phone ++
        (address ++ Murdance.booking_receipt_post rid) := by
    simp [Murdance.booking_receipt_render, Murdance.booking_receipt_pre,
      Murdance.booking_receipt_post, List.append_assoc]
  have haddr_ne : address ≠ [] := by
    intro hnil
    have h0 : address.length = 0 := by rw [hnil]; rfl
    simp only [Murdance.max_address_len] at hroom
    omega
  have hout : Murdance.generate_booking_receipt group dt name phone address rid =
      Murdance.replaceAll address
        (Murdance.truncated_address
          (Murdance.booking_receipt_render group dt name phone address rid) address)
        (Murdance.booking_receipt_render group dt name phone address rid) := by
    simp only [Murdance.generate_booking_receipt]
    rw [if_pos hover, if_pos hroom]
  rw [hdecomp] at hnomatch
  have hstruct : Murdance.generate_booking_receipt group dt name phone address rid =
      Murdance.booking_receipt_pre group dt name phone ++
        (Murdance.truncated_address
            (Murdance.booking_receipt_render group dt name phone address rid) address ++
          Murdance.replaceAll address
            (Murdance.truncated_address
              (Murdance.booking_receipt_render group dt name phone address rid) address)
            (Murdance.booking_receipt_post rid)) := by
    rw [hout]
    generalize Murdance.truncated_address
      (Murdance.booking_receipt_render group dt name phone address rid) address = tr
    rw [hdecomp]
    exact replaceAll_once address tr (Murdance.booking_receipt_post rid) haddr_ne
      (Murdance.booking_receipt_pre group dt name phone) hnomatch
  have hlenR :
      (Murdance.booking_receipt_render group dt name phone address rid).length =
        (Murdance.booking_receipt_pre group dt name phone).length +
          (address.length + (Murdance.booking_receipt_post rid).length) := by
    rw [hdecomp]
    simp [List.length_append]
  have hM4 : (Murdance.max_address_len
      (Murdance.booking_receipt_render group dt name phone address rid) address).toNat
        + 4 ≤ address.length := by
    simp only [Murdance.max_address_len] at hroom ⊢
    omega
  have htr_len : (Murdance.truncated_address
      (Murdance.booking_receipt_render group dt name phone address rid) address).length =
      (Murdance.max_address_len
        (Murdance.booking_receipt_render group dt name phone address rid) address).toNat
        + 3 := by
    simp only [Murdance.truncated_address, List.length_append, List.length_take]
    have h3 : ("...".data).length = 3 := by decide
    rw [h3]
    omega
  have htr_le : (Murdance.truncated_address
      (Murdance.booking_receipt_render group dt name phone address rid) address).length
      ≤ address.length := by omega
  have hrepl_len : (Murdance.replaceAll address
      (Murdance.truncated_address
        (Murdance.booking_receipt_render group dt name phone address rid) address)
      (Murdance.booking_receipt_post rid)).length ≤
      (Murdance.booking_receipt_post rid).length :=
    replaceAll_length_le address _ htr_le _
  have hlen : (Murdance.generate_booking_receipt group dt name phone address rid).length
      ≤ 300 := by
    rw [hstruct]
    simp only [List.length_append]
    simp only [Murdance.max_address_len] at hroom hM4 htr_len
    omega
  refine ⟨hlen, hstruct, ?_, ?_, ?_, ?_, ?_⟩
  · exact ⟨Murdance.seg_head,
      Murdance.seg_dt ++ dt ++ Murdance.seg_name ++ name ++ Murdance.seg_phone ++
        phone ++ Murdance.seg_addr ++
        (Murdance.truncated_address
            (Murdance.booking_receipt_render group dt name phone address rid) address ++
          Murdance.replaceAll address
            (Murdance.truncated_address
              (Murdance.booking_receipt_render group dt name phone address rid) address)
            (Murdance.booking_receipt_post rid)),
      by rw [hstruct]; simp [Murdance.booking_receipt_pre, List.append_assoc]⟩
  · exact ⟨Murdance.seg_head ++ group ++ Murdance.seg_dt,
      Murdance.seg_name ++ name ++ Murdance.seg_phone ++ phone ++ Murdance.seg_addr ++
        (Murdance.truncated_address
            (Murdance.booking_receipt_render group dt name phone address rid) address ++
          Murdance.replaceAll address
            (Murdance.truncated_address
              (Murdance.booking_receipt_render group dt name phone address rid) address)
            (Murdance.booking_receipt_post rid)),
      by rw [hstruct]; simp [Murdance.booking_receipt_pre, List.append_assoc]⟩
  · exact ⟨Murdance.seg_head ++ group ++ Murdance.seg_dt ++ dt ++ Murdance.seg_name,
      Murdance.seg_phone ++ phone ++ Murdance.seg_addr ++
        (Murdance.truncated_address
            (Murdance.booking_receipt_render group dt name phone address rid) address ++
          Murdance.replaceAll address
            (Murdance.truncated_address
              (Murdance.booking_receipt_render group dt name phone address rid) address)
            (Murdance.booking_receipt_post rid)),
      by rw [hstruct]; simp [Murdance.booking_receipt_pre, List.append_assoc]⟩
  · exact ⟨Murdance.seg_head ++ group ++ Murdance.seg_dt ++ dt ++ Murdance.seg_name ++
        name ++ Murdance.seg_phone,
      Murdance.seg_addr ++
        (Murdance.truncated_address
            (Murdance.booking_receipt_render group dt name phone address rid) address ++
          Murdance.replaceAll address
            (Murdance.truncated_address
              (Murdance.booking_receipt_render group dt name phone address rid) address)
            (Murdance.booking_receipt_post rid)),
      by rw [hstruct]; simp [Murdance.booking_receipt_pre, List.append_assoc]⟩
  · exact ⟨Murdance.booking_receipt_pre group dt name phone,
      Murdance.replaceAll address
        (Murdance.truncated_address
          (Murdance.booking_receipt_render group dt name phone address rid) address)
        (Murdance.booking_receipt_post rid),
      by rw [hstruct]; simp [List.append_assoc]⟩

/-- Witness for C8: a booking for "Хип-хоп" with a 240-character address
renders to more than 300 characters; the produced receipt is capped at 300
and still contains direction, date/time, name and phone. -/
theorem receipt_cap_preserves_fields_witness :
    (Murdance.generate_booking_receipt ("Хип-хоп".data) ("13.10.2026 19:00".data)
        ("Аня".data) ("89990001122".data) (List.replicate 240 '@')
        ("12345".data)).length ≤ 300 ∧
    ("Хип-хоп".data) <:+:
      Murdance.generate_booking_receipt ("Хип-хоп".data) ("13.10.2026 19:00".data)
        ("Аня".data) ("89990001122".data) (List.replicate 240 '@') ("12345".data) ∧
    ("89990001122".data) <:+:
      Murdance.generate_booking_receipt ("Хип-хоп".data) ("13.10.2026 19:00".data)
        ("Аня".data) ("89990001122".data) (List.replicate 240 '@') ("12345".data) :=
  have h := receipt_cap_preserves_fields ("Хип-хоп".data) ("13.10.2026 19:00".data)
    ("Аня".data) ("89990001122".data) (List.replicate 240 '@') ("12345".data)
    (by decide) (by decide) (by decide)
  ⟨h.1, h.2.2.1, h.2.2.2.2.2.1⟩

/-- Claim C9: When `confirm_booking` resolves no schedule entry matching the
target date, time and group (and no schedule id was pinned in the slots), it
returns the "no suitable class found, contact admin" message while the
session remains in BOOKING_IN_PROGRESS — no transition back to IDLE happens
on this path — and the idempotency store is untouched: no lock is acquired or
released. -/
theorem confirm_no_match_stays_in_progress
    (slots : Murdance.SlotValues) (env : Murdance.ConfirmEnv)
    (st : Murdance.RedisState) (now : Nat)
    (booking_net : Except Murdance.PyExc Murdance.Reservation)
    (g d t : String)
    (hgroup : slots.group = some g) (hg : g ≠ "")
    (hdt : slots.datetime_resolved = some (d, t))
    (hsid : slots.schedule_id = none)
    (hno : env.schedules.find?
        (Murdance.schedule_matches d t
          (Murdance.resolve_group_id env.groups slots.group)) = none) :
    Murdance.confirm_booking ⟨Murdance.ConversationState.CONFIRM_BOOKING, slots⟩
        env st now booking_net =
      (Murdance.no_suitable_msg,
       ⟨Murdance.ConversationState.BOOKING_IN_PROGRESS, slots⟩, st, []) := by
  have h1 : Murdance.optStrTruthy slots.group = true := by
    rw [hgroup]; simp [Murdance.optStrTruthy, hg]
  have h2 : slots.datetime_resolved.isNone = false := by rw [hdt]; rfl
  have hcan : Murdance.can_transition Murdance.ConversationState.CONFIRM_BOOKING
      Murdance.ConversationState.BOOKING_IN_PROGRESS = true := rfl
  have htrans : Murdance.transition_state
      ⟨Murdance.ConversationState.CONFIRM_BOOKING, slots⟩
      Murdance.ConversationState.BOOKING_IN_PROGRESS =
      (⟨Murdance.ConversationState.BOOKING_IN_PROGRESS, slots⟩, true) := by
    simp [Murdance.transition_state, hcan]
  have hsidf : Murdance.optStrTruthy slots.schedule_id = false := by
    rw [hsid]; rfl
  simp only [Murdance.confirm_booking, h1, h2, htrans, hsidf, hdt, hsid,
    Bool.not_true, Bool.false_or, Bool.or_false, if_neg, ite_false,
    Bool.false_eq_true, if_false]
  rw [hgroup] at hno ⊢
  simp only [hno]
  simp [Murdance.optStrTruthy]

/-- Witness for C9: a session confirming "Хип-хоп" on 2026-10-13 at 19:00
against a schedule that only has a 20:00 entry keeps the session in
BOOKING_IN_PROGRESS, returns the no-suitable-class message, and no lock event
occurs. -/
theorem confirm_no_match_stays_in_progress_witness :
    Murdance.confirm_booking
      ⟨Murdance.ConversationState.CONFIRM_BOOKING,
       { group := some "Хип-хоп",
         datetime_resolved := some ("2026-10-13", "19:00"),
         client_name := some "Аня", client_phone := some "89990001122" }⟩
      { found_client := some { id := 3, name := "Аня", phone := "89990001122" },
        created_client := { id := 3, name := "Аня", phone := "89990001122" },
        groups := [{ id := 1, name := "Хип-хоп" }],
        schedules := [{ id := 5, group_id := some 1, date := "2026-10-13",
                        time := "20:00" }],
        studio_address := "ул. Пушкина, 1" }
      Murdance.RedisState.empty 0
      (Except.ok { id := 9, client_id := 3, schedule_id := 5 }) =
      (Murdance.no_suitable_msg,
       ⟨Murdance.ConversationState.BOOKING_IN_PROGRESS,
        { group := some "Хип-хоп",
          datetime_resolved := some ("2026-10-13", "19:00"),
          client_name := some "Аня", client_phone := some "89990001122" }⟩,
       Murdance.RedisState.empty, []) :=
  confirm_no_match_stays_in_progress
    { group := some "Хип-хоп",
      datetime_resolved := some ("2026-10-13", "19:00"),
      client_name := some "Аня", client_phone := some "89990001122" }
    { found_client := some { id := 3, name := "Аня", phone := "89990001122" },
      created_client := { id := 3, name := "Аня", phone := "89990001122" },
      groups := [{ id := 1, name := "Хип-хоп" }],
      schedules := [{ id := 5, group_id := some 1, date := "2026-10-13",
                      time := "20:00" }],
      studio_address := "ул. Пушкина, 1" }
    Murdance.RedisState.empty 0
    (Except.ok { id := 9, client_id := 3, schedule_id := 5 })
    "Хип-хоп" "2026-10-13" "19:00" rfl (by decide) rfl rfl (by decide)
